import Mathlib

/-!
Verification of the csrf middleware (`csrf.go`) against its natural-language
specification.

The repository's own code (`csrf.go`: the `csrf` context type, `Generate`,
`Validate`, the `Options` struct and the `domainReg` constant) is embedded
below as executable Lean definitions.  The token codec it delegates to
(`code.google.com/p/xsrftoken`) and the Go regexp engine are external
dependencies whose sources are not part of this repository; they are
modelled from the specification, as marked on each such definition.

Time is modelled as a natural number of seconds; the 24-hour constants of
the spec (token validity window, cookie expiry) become `86400`.
-/

namespace xsrftoken

/-- Modelled from the spec: the `xsrftoken` library is an external
dependency (import `code.google.com/p/xsrftoken`) whose source is not in
this repository.  Spec 4.1: the expiry duration is "a hardwired constant,
e.g. 24 hours"; with seconds as the time unit this is 86400. -/
def Timeout : Nat := 86400

/-- Modelled from the spec: single-character escaping step making the
field encoding of a token injective (`\` and the field separator `|` are
escaped).  Together with `escape` it stands in for the collision-free
binding `f(Secret, SubjectId, ActionLabel, timestamp)` of spec 3. -/
def escChar (c : Char) : List Char :=
  if c = '\\' then ['\\', 'b']
  else if c = '|' then ['\\', 'p']
  else [c]

/-- Modelled from the spec: escape every character of a token field. -/
def escape : List Char → List Char
  | [] => []
  | c :: l => escChar c ++ escape l

/-- Modelled from the spec: unary encoding of the embedded timestamp
(the leading token field, terminated by the first `|`). -/
def unary : Nat → List Char
  | 0 => []
  | n + 1 => 'x' :: unary n

/-- Modelled from the spec (4.1 `derive`): a token binding the secret, the
subject id, the action label and the derivation timestamp.  The timestamp
is embedded in the token itself (first field); it is tamper-evident
because `Valid` re-derives the entire token from it and compares. -/
def Generate (key userID actionID : String) (now : Nat) : String :=
  ⟨unary now ++ '|' :: (escape key.data ++ '|' :: (escape userID.data ++ '|' :: escape actionID.data))⟩

/-- Modelled from the spec: parse the embedded timestamp (the leading
unary field) of a candidate token; `none` on malformed input. -/
def tsAux : List Char → Option Nat
  | [] => none
  | c :: l =>
    if c = '|' then some 0
    else if c = 'x' then (tsAux l).map (· + 1)
    else none

/-- Modelled from the spec (4.1 `verify`): true iff the candidate was
produced by `Generate` with the same key, user id and action id and its
embedded timestamp lies within the validity window of `now`; false on any
malformed input — the function is total and never raises. -/
def Valid (candidate key userID actionID : String) (now : Nat) : Bool :=
  match tsAux candidate.data with
  | none => false
  | some ts =>
      decide (ts ≤ now) &&
        (decide (now < ts + Timeout) && decide (candidate = Generate key userID actionID ts))

theorem tsAux_unary (t : Nat) (l : List Char) : tsAux (unary t ++ '|' :: l) = some t := by
  induction t with
  | zero => simp [unary, tsAux]
  | succ n ih => simp [unary, tsAux, ih]

theorem valid_generate (key userID actionID : String) (t now : Nat)
    (h1 : t ≤ now) (h2 : now < t + Timeout) :
    Valid (Generate key userID actionID t) key userID actionID now = true := by
  unfold Valid
  rw [show (Generate key userID actionID t).data
        = unary t ++ '|' :: (escape key.data ++ '|' :: (escape userID.data ++ '|' :: escape actionID.data))
      from rfl]
  rw [tsAux_unary]
  simp [h1, h2]

theorem escChar_ne_bar_cons (c : Char) (l m : List Char) : escChar c ++ l ≠ '|' :: m := by
  unfold escChar
  split
  · simp
  · split
    · simp
    · next h1 h2 => simp [h2]

theorem escChar_cases (c : Char) :
    (c = '\\' ∧ escChar c = ['\\', 'b']) ∨ (c = '|' ∧ escChar c = ['\\', 'p']) ∨
      (c ≠ '\\' ∧ c ≠ '|' ∧ escChar c = [c]) := by
  unfold escChar
  by_cases h1 : c = '\\'
  · exact Or.inl ⟨h1, by rw [if_pos h1]⟩
  · by_cases h2 : c = '|'
    · exact Or.inr (Or.inl ⟨h2, by rw [if_neg h1, if_pos h2]⟩)
    · exact Or.inr (Or.inr ⟨h1, h2, by rw [if_neg h1, if_neg h2]⟩)

theorem escChar_append_inj (c1 c2 : Char) (x y : List Char)
    (h : escChar c1 ++ x = escChar c2 ++ y) : c1 = c2 ∧ x = y := by
  rcases escChar_cases c1 with ⟨e1, q1⟩ | ⟨e1, q1⟩ | ⟨e1, e1', q1⟩ <;>
    rcases escChar_cases c2 with ⟨e2, q2⟩ | ⟨e2, q2⟩ | ⟨e2, e2', q2⟩ <;>
      rw [q1, q2] at h <;>
        simp only [List.cons_append, List.singleton_append] at h
  · injection h with _ h2
    injection h2 with _ h3
    exact ⟨e1.trans e2.symm, h3⟩
  · injection h with _ h2
    injection h2 with hbp _
    exact absurd hbp (by decide)
  · injection h with hh _
    exact absurd hh.symm e2
  · injection h with _ h2
    injection h2 with hbp _
    exact absurd hbp (by decide)
  · injection h with _ h2
    injection h2 with _ h3
    exact ⟨e1.trans e2.symm, h3⟩
  · injection h with hh _
    exact absurd hh.symm e2
  · injection h with hh _
    exact absurd hh e1
  · injection h with hh _
    exact absurd hh e1
  · injection h with hh h2
    exact ⟨hh, h2⟩

theorem escape_barSplit_inj :
    ∀ (l1 l2 m1 m2 : List Char),
      escape l1 ++ '|' :: m1 = escape l2 ++ '|' :: m2 → l1 = l2 ∧ m1 = m2 := by
  intro l1
  induction l1 with
  | nil =>
    intro l2 m1 m2 h
    cases l2 with
    | nil =>
      simp [escape] at h
      exact ⟨rfl, h⟩
    | cons c l2' =>
      exfalso
      rw [show escape [] = ([] : List Char) from rfl] at h
      rw [show escape (c :: l2') = escChar c ++ escape l2' from rfl, List.append_assoc] at h
      exact escChar_ne_bar_cons c _ _ h.symm
  | cons c1 l1' ih =>
    intro l2 m1 m2 h
    cases l2 with
    | nil =>
      exfalso
      rw [show escape [] = ([] : List Char) from rfl] at h
      rw [show escape (c1 :: l1') = escChar c1 ++ escape l1' from rfl, List.append_assoc] at h
      exact escChar_ne_bar_cons c1 _ _ h
    | cons c2 l2' =>
      rw [show escape (c1 :: l1') = escChar c1 ++ escape l1' from rfl,
          show escape (c2 :: l2') = escChar c2 ++ escape l2' from rfl,
          List.append_assoc, List.append_assoc] at h
      obtain ⟨hc, ht⟩ := escChar_append_inj c1 c2 _ _ h
      obtain ⟨hl, hm⟩ := ih l2' m1 m2 ht
      exact ⟨by rw [hc, hl], hm⟩

theorem generate_userID_inj (key u1 u2 actionID : String) (t : Nat)
    (h : Generate key u1 actionID t = Generate key u2 actionID t) : u1 = u2 := by
  unfold Generate at h
  have hdata :
      unary t ++ '|' :: (escape key.data ++ '|' :: (escape u1.data ++ '|' :: escape actionID.data))
        = unary t ++ '|' :: (escape key.data ++ '|' :: (escape u2.data ++ '|' :: escape actionID.data)) :=
    congrArg String.data h
  have h2 := List.append_cancel_left hdata
  injection h2 with _ h2'
  have h3 := List.append_cancel_left h2'
  injection h3 with _ h3'
  obtain ⟨hd, _⟩ := escape_barSplit_inj u1.data u2.data _ _ h3'
  exact String.ext hd

theorem valid_true_shape (candidate key userID actionID : String) (now : Nat)
    (h : Valid candidate key userID actionID now = true) :
    ∃ t, candidate = Generate key userID actionID t ∧ t ≤ now ∧ now < t + Timeout := by
  unfold Valid at h
  cases hts : tsAux candidate.data with
  | none => rw [hts] at h; exact absurd h (by simp)
  | some ts =>
    rw [hts] at h
    simp only [Bool.and_eq_true, decide_eq_true_eq] at h
    exact ⟨ts, h.2.2, h.1, h.2.1⟩

end xsrftoken

/-!
The Go regexp engine, specialised to the domainReg pattern.

csrf.go line 115 hardwires the pattern constant (shown here with @ in place
of the backtick quotes):

  domainReg = @/^\.?[a-z\d]+(?:(?:[a-z\d]*)|(?:[a-z\d\-]*[a-z\d]))(?:\.[a-z\d]+(?:(?:[a-z\d]*)|(?:[a-z\d\-]*[a-z\d])))*$/@

and Generate calls regexp.Match(domainReg, []byte(domain)).  The leading
and trailing '/' are not delimiters for Go: they are literal characters of
the pattern.  The AST below transcribes the pattern character by character.
-/

/-- Abstract syntax of the (RE2) regular expressions needed for the
domainReg pattern: empty word, literal character, character class,
concatenation, alternation, Kleene star and the ^ / $ anchors. -/
inductive Regex where
  | eps
  | chr (c : Char)
  | cls (p : Char → Bool)
  | seq (r1 r2 : Regex)
  | alt (r1 r2 : Regex)
  | star (r : Regex)
  | bol
  | eol

/-- Modelled from the spec: the Go regexp package is an external
dependency.  Backtracking matcher for `Regex` over a word `w`: try to
match the expression at position `i` and pass the end position to the
continuation `k`.  Per RE2 semantics (no multiline flag) `bol` (the `^`
anchor) matches only at position 0 and `eol` (`$`) only at the end of the
text.  The fuel argument bounds the backtracking depth; every theorem
below holds for every fuel value. -/
def matchAt : Nat → Regex → List Char → Nat → (Nat → Bool) → Bool
  | 0, _, _, _, _ => false
  | _ + 1, .eps, _, i, k => k i
  | _ + 1, .chr c, w, i, k =>
    match w[i]? with
    | some c2 => decide (c2 = c) && k (i + 1)
    | none => false
  | _ + 1, .cls p, w, i, k =>
    match w[i]? with
    | some c2 => p c2 && k (i + 1)
    | none => false
  | fuel + 1, .seq r1 r2, w, i, k => matchAt fuel r1 w i fun j => matchAt fuel r2 w j k
  | fuel + 1, .alt r1 r2, w, i, k => matchAt fuel r1 w i k || matchAt fuel r2 w i k
  | fuel + 1, .star r, w, i, k =>
    k i || matchAt fuel r w i fun j => if j = i then false else matchAt fuel (.star r) w j k
  | _ + 1, .bol, _, i, k => decide (i = 0) && k i
  | _ + 1, .eol, w, i, k => decide (i = w.length) && k i

/-- Modelled from the spec: Go's regexp.Match reports whether the input
contains a match of the pattern anywhere, i.e. whether the pattern
matches starting at some position. -/
def regexpMatch (r : Regex) (w : List Char) : Bool :=
  (List.range (w.length + 1)).any fun i => matchAt ((w.length + 2) * 1000) r w i fun _ => true

/-- The character class [a-z\d] of the domainReg pattern. -/
def alnumClass (c : Char) : Bool := ('a' ≤ c && c ≤ 'z') || ('0' ≤ c && c ≤ '9')

/-- The character class [a-z\d\-] of the domainReg pattern. -/
def alnumDashClass (c : Char) : Bool := alnumClass c || c = '-'

/-- The group (?:(?:[a-z\d]*)|(?:[a-z\d\-]*[a-z\d])) of the pattern. -/
def labelTail : Regex :=
  .alt (.star (.cls alnumClass)) (.seq (.star (.cls alnumDashClass)) (.cls alnumClass))

/-- [a-z\d]+ followed by `labelTail` (a "+"-repetition is one occurrence
followed by a star). -/
def labelBody : Regex := .seq (.seq (.cls alnumClass) (.star (.cls alnumClass))) labelTail

/-- The starred group (?:\.[a-z\d]+(?:(?:[a-z\d]*)|(?:[a-z\d\-]*[a-z\d])))* -/
def dottedPart : Regex := .star (.seq (.chr '.') labelBody)

/-- Everything of the domainReg pattern after the ^ anchor: the optional
leading \.?, the first label, the starred dotted labels, the $ anchor and
the trailing literal '/'. -/
def domainBody : Regex :=
  .seq (.alt (.chr '.') .eps) (.seq labelBody (.seq dottedPart (.seq .eol (.chr '/'))))

/-- The domainReg pattern from the ^ anchor on: the anchor, then the body. -/
def afterSlash : Regex := .seq .bol domainBody

/-- The full domainReg pattern of csrf.go line 115: a literal '/', then
the ^ anchor, then the rest.  Because the '/' must consume one character
before ^ is evaluated, the anchor can never hold. -/
def domainRegex : Regex := .seq (.chr '/') afterSlash

theorem matchAt_bol_seq (fuel : Nat) (rest : Regex) (w : List Char) (j : Nat) (k : Nat → Bool)
    (hj : j ≠ 0) : matchAt fuel (.seq .bol rest) w j k = false := by
  cases fuel with
  | zero => rfl
  | succ f =>
    cases f with
    | zero => rfl
    | succ f' => simp [matchAt, hj]

theorem matchAt_domainRegex (fuel : Nat) (w : List Char) (i : Nat) (k : Nat → Bool) :
    matchAt fuel domainRegex w i k = false := by
  cases fuel with
  | zero => rfl
  | succ f =>
    cases f with
    | zero => rfl
    | succ f' =>
      show matchAt (f' + 1 + 1) (.seq (.chr '/') afterSlash) w i k = false
      rw [matchAt]
      cases hw : w[i]? with
      | none => rw [matchAt, hw]
      | some c =>
        rw [matchAt, hw, show afterSlash = .seq .bol domainBody from rfl,
          matchAt_bol_seq (f' + 1) domainBody w (i + 1) k (Nat.succ_ne_zero i)]
        simp

theorem regexpMatch_domainRegex (w : List Char) : regexpMatch domainRegex w = false := by
  simp [regexpMatch, matchAt_domainRegex]

/-!
The csrf package itself, translated from csrf.go.
-/

/-- The csrf struct of csrf.go (lines 81-88): the generated token, the
per-user id and the secret. -/
structure csrf where
  Token : String
  Id : String
  Secret : String
deriving DecidableEq

/-- csrf.GetToken (lines 92-94): returns the current token verbatim. -/
def csrf.GetToken (c : csrf) : String := c.Token

/-- csrf.ValidToken (lines 97-99): delegates to xsrftoken.Valid with the
stored secret and id and the fixed action label "POST".  The Go code reads
the wall clock inside xsrftoken.Valid; here the current time is an
explicit parameter. -/
def csrf.ValidToken (c : csrf) (t : String) (now : Nat) : Bool :=
  xsrftoken.Valid t c.Secret c.Id "POST" now

/-- The Options struct of csrf.go (lines 102-113). -/
structure Options where
  Secret : String
  SessionKey : String
  SetHeader : Bool
  SetCookie : Bool
  Secure : Bool
deriving DecidableEq

/-- A value stored in the session under the session key.  The Go code
type-switches on the dynamic type of the interface value and accepts only
strings; every non-string value is collapsed into `other`. -/
inductive SessVal where
  | str (s : String)
  | other
deriving DecidableEq

/-- The parts of *http.Request read by Generate and Validate: the method,
a header lookup (Header.Get returns "" for an absent header), a cookie
lookup (r.Cookie returns an error for an absent cookie, modelled as
`none`, and otherwise the cookie's value), a form value lookup (FormValue
returns "" for an absent field) and the Host. -/
structure Request where
  Method : String
  headerGet : String → String
  cookieGet : String → Option String
  formValue : String → String
  Host : String

/-- The fields of the http.Cookie literal built by Generate (lines
148-160).  `Expires` holds the absolute expiry time in seconds;
`RawExpires`, a textual rendering of the same instant, is not modelled
(date formatting is outside the embedding). -/
structure Cookie where
  Name : String
  Value : String
  Path : String
  Domain : String
  Expires : Nat
  MaxAge : Nat
  Secure : Bool
  HttpOnly : Bool
  Raw : String
  Unparsed : List String
deriving DecidableEq

/-- The observable outcome of one run of the Generate middleware: the csrf
context mapped into the request pipeline (c.MapTo, line 122), the cookie
written via http.SetCookie (line 161) if any, and the value added to the
X-CSRFToken response header (line 165) if any. -/
structure GenResult where
  ctx : csrf
  cookie : Option Cookie
  header : Option String
deriving DecidableEq

/-- strings.Split(r.Host, ":")[0] (line 144): the prefix of the host
before the first colon. -/
def stripPort (h : String) : String := ⟨h.data.takeWhile fun c => c ≠ ':'⟩

/-- time.Now().AddDate(0, 0, 1) adds one day (line 142); in seconds. -/
def oneDay : Nat := 86400

/-- The Generate middleware of csrf.go (lines 119-169), as a function of
the options, the session lookup, the request and the current time.
Line-by-line: construct the context with the secret and map it; look up
the session value at SessionKey and return unless it is a string; unless
the method is GET and the X-API-Key header is empty, return; if the _csrf
request cookie is present with a non-empty value, reuse it as the token;
otherwise mint a token with xsrftoken.Generate, and if SetCookie is set
write the _csrf cookie (with the domain blanked unless it matches
domainReg); in either branch, if SetHeader is set add the token to the
X-CSRFToken response header.  The Go condition err == nil &&
ex.Value != "" is (r.cookieGet "_csrf").getD "" ≠ "" here: an absent
cookie (err ≠ nil) and a present-but-empty cookie both fall to the
minting branch. -/
def Generate (opts : Options) (sess : String → Option SessVal) (r : Request) (now : Nat) :
    GenResult :=
  let x0 : csrf := { Token := "", Id := "", Secret := opts.Secret }
  match sess opts.SessionKey with
  | none => ⟨x0, none, none⟩
  | some SessVal.other => ⟨x0, none, none⟩
  | some (SessVal.str uid) =>
    let x1 := { x0 with Id := uid }
    if r.Method = "GET" ∧ r.headerGet "X-API-Key" = "" then
      let exVal := (r.cookieGet "_csrf").getD ""
      if exVal ≠ "" then
        ⟨{ x1 with Token := exVal }, none, if opts.SetHeader then some exVal else none⟩
      else
        let tok := xsrftoken.Generate x1.Secret x1.Id "POST" now
        let ck : Option Cookie :=
          if opts.SetCookie then
            let expire := now + oneDay
            let domain0 := stripPort r.Host
            let domain := if regexpMatch domainRegex domain0.data then domain0 else ""
            some { Name := "_csrf", Value := tok, Path := "/", Domain := domain,
                   Expires := expire, MaxAge := 0, Secure := opts.Secure, HttpOnly := false,
                   Raw := "_csrf=" ++ tok, Unparsed := ["token=" ++ tok] }
          else none
        ⟨{ x1 with Token := tok }, ck, if opts.SetHeader then some tok else none⟩
    else ⟨x1, none, none⟩

/-- The Validate middleware of csrf.go (lines 175-190): `none` means no
error response was written and the pipeline proceeds to the real handler;
`some (status, body)` is the short-circuiting http.Error reply. -/
def Validate (r : Request) (x : csrf) (now : Nat) : Option (Nat × String) :=
  let token := r.headerGet "X-CSRFToken"
  if token ≠ "" then
    if x.ValidToken token now then none else some (400, "Invalid X-CSRFToken")
  else
    let ftoken := r.formValue "_csrf"
    if ftoken ≠ "" then
      if x.ValidToken ftoken now then none else some (400, "Invalid _csrf token")
    else some (400, "Bad Request")

/-- The terminal states of the validation state machine of spec 4.3. -/
inductive ValState where
  | headerAccepted
  | headerRejected
  | formAccepted
  | formRejected
  | rejectedNoToken
deriving DecidableEq

/-- The validation state machine exactly as the spec words it (4.3):
NotChecked goes, on a present header, to HeaderChecked (Accepted or
Rejected per the token check); else, on a present form field, to
FormChecked likewise; else to Rejected-NoToken. -/
def specTransition (r : Request) (x : csrf) (now : Nat) : ValState :=
  if r.headerGet "X-CSRFToken" ≠ "" then
    if x.ValidToken (r.headerGet "X-CSRFToken") now then .headerAccepted else .headerRejected
  else if r.formValue "_csrf" ≠ "" then
    if x.ValidToken (r.formValue "_csrf") now then .formAccepted else .formRejected
  else .rejectedNoToken

/-- The HTTP response each terminal state feeds, per spec 4.3 and 6:
accepted states let the pipeline continue (no response), rejected states
answer 400 with the corresponding literal body. -/
def stateResponse : ValState → Option (Nat × String)
  | .headerAccepted => none
  | .headerRejected => some (400, "Invalid X-CSRFToken")
  | .formAccepted => none
  | .formRejected => some (400, "Invalid _csrf token")
  | .rejectedNoToken => some (400, "Bad Request")

theorem tsAux_generate (key userID actionID : String) (t : Nat) :
    xsrftoken.tsAux (xsrftoken.Generate key userID actionID t).data = some t :=
  xsrftoken.tsAux_unary t _

/-- Claim C1: for every secret s, subject id u and derivation timestamp t
within the validity window of the verification time now, verifying the
token derived by xsrftoken.Generate s u "POST" t against the same s, u,
"POST" at time now returns true (derive/verify round-trip); verification
is csrf.ValidToken on a context holding s and u. -/
theorem claim_C1_derive_verify_roundtrip (s u tk : String) (t now : Nat)
    (h1 : t ≤ now) (h2 : now < t + xsrftoken.Timeout) :
    csrf.ValidToken { Token := tk, Id := u, Secret := s }
      (xsrftoken.Generate s u "POST" t) now = true :=
  xsrftoken.valid_generate s u "POST" t now h1 h2

theorem claim_C1_witness :
    csrf.ValidToken { Token := "", Id := "u", Secret := "s" }
      (xsrftoken.Generate "s" "u" "POST" 1) 2 = true :=
  claim_C1_derive_verify_roundtrip "s" "u" "" 1 2 (by decide) (by decide)

/-- Claim C3: a candidate verifies only if it was derived with the same
secret, subject id and action label and its embedded timestamp is within
the validity window of the verification time (first conjunct); a token
derived for subject u1 does not verify for a distinct subject u2 under
the same secret (second conjunct); and a token whose embedded timestamp
is older than the expiry window fails verification even with the correct
secret and subject (third conjunct). -/
theorem claim_C3_verify_binding :
    (∀ (c s u a : String) (now : Nat), xsrftoken.Valid c s u a now = true →
        ∃ t, c = xsrftoken.Generate s u a t ∧ t ≤ now ∧ now < t + xsrftoken.Timeout) ∧
    (∀ (s u1 u2 : String) (t now : Nat), u1 ≠ u2 →
        xsrftoken.Valid (xsrftoken.Generate s u1 "POST" t) s u2 "POST" now = false) ∧
    (∀ (s u : String) (t now : Nat), t + xsrftoken.Timeout ≤ now →
        xsrftoken.Valid (xsrftoken.Generate s u "POST" t) s u "POST" now = false) := by
  refine ⟨xsrftoken.valid_true_shape, ?_, ?_⟩
  · intro s u1 u2 t now hne
    have hgen : xsrftoken.Generate s u1 "POST" t ≠ xsrftoken.Generate s u2 "POST" t :=
      fun he => hne (xsrftoken.generate_userID_inj s u1 u2 "POST" t he)
    unfold xsrftoken.Valid
    rw [tsAux_generate]
    simp [hgen]
  · intro s u t now hexp
    have hlt : ¬ now < t + xsrftoken.Timeout := Nat.not_lt.mpr hexp
    unfold xsrftoken.Valid
    rw [tsAux_generate]
    simp [hlt]

theorem claim_C3_witness :
    xsrftoken.Valid (xsrftoken.Generate "s" "u" "POST" 1) "s" "v" "POST" 2 = false ∧
    xsrftoken.Valid (xsrftoken.Generate "s" "u" "POST" 1) "s" "u" "POST" 86401 = false ∧
    (∃ t, xsrftoken.Generate "s" "u" "POST" 1 = xsrftoken.Generate "s" "u" "POST" t ∧
      t ≤ 2 ∧ 2 < t + xsrftoken.Timeout) :=
  ⟨claim_C3_verify_binding.2.1 "s" "u" "v" 1 2 (by decide),
   claim_C3_verify_binding.2.2 "s" "u" 1 86401 (by decide),
   claim_C3_verify_binding.1 _ "s" "u" "POST" 2 (by decide)⟩

/-- Claim C8: verification is a total boolean function (it is a Lean
function into Bool, so it never raises), and on every input, either the
candidate is a string produced by the derivation function or verification
returns false. -/
theorem claim_C8_verify_total (c s u a : String) (now : Nat) :
    (∃ t, c = xsrftoken.Generate s u a t) ∨ xsrftoken.Valid c s u a now = false := by
  cases hv : xsrftoken.Valid c s u a now with
  | false => exact Or.inr rfl
  | true =>
    obtain ⟨t, ht, _, _⟩ := xsrftoken.valid_true_shape c s u a now hv
    exact Or.inl ⟨t, ht⟩

/-- Claim C2: Validate follows the spec's state machine exactly (first
conjunct: its response equals the response the spec's machine feeds), and
when the X-CSRFToken header is non-empty the form field is never
inspected (second conjunct: two requests agreeing on a non-empty header
get the same outcome whatever their form fields). -/
theorem claim_C2_validate_state_machine :
    (∀ (r : Request) (x : csrf) (now : Nat),
        Validate r x now = stateResponse (specTransition r x now)) ∧
    (∀ (r1 r2 : Request) (x : csrf) (now : Nat),
        r1.headerGet "X-CSRFToken" = r2.headerGet "X-CSRFToken" →
        r1.headerGet "X-CSRFToken" ≠ "" →
        Validate r1 x now = Validate r2 x now) := by
  constructor
  · intro r x now
    simp only [Validate, specTransition]
    split_ifs <;> rfl
  · intro r1 r2 x now heq hne
    have hne2 : r2.headerGet "X-CSRFToken" ≠ "" := heq ▸ hne
    simp [Validate, heq, hne2]

theorem claim_C2_witness :
    Validate
      { Method := "POST", headerGet := fun n => if n = "X-CSRFToken" then "tok" else "",
        cookieGet := fun _ => none, formValue := fun _ => "f1", Host := "h" }
      { Token := "", Id := "", Secret := "" } 0
    = Validate
      { Method := "POST", headerGet := fun n => if n = "X-CSRFToken" then "tok" else "",
        cookieGet := fun _ => none, formValue := fun _ => "f2", Host := "h" }
      { Token := "", Id := "", Secret := "" } 0 :=
  claim_C2_validate_state_machine.2 _ _ _ 0 rfl (by decide)

/-- Claim C4: on a GET request (without API-key bypass) whose incoming
_csrf cookie has a non-empty value, Generate copies that exact value into
the context's Token — for any value v, validated or not, so no
re-validation happens — and writes no cookie (no new token is minted via
derive: the token stored is v itself). -/
theorem claim_C4_cookie_reuse (opts : Options) (sess : String → Option SessVal)
    (r : Request) (now : Nat) (uid v : String)
    (hs : sess opts.SessionKey = some (SessVal.str uid))
    (hm : r.Method = "GET") (hk : r.headerGet "X-API-Key" = "")
    (hc : r.cookieGet "_csrf" = some v) (hv : v ≠ "") :
    (Generate opts sess r now).ctx.Token = v ∧ (Generate opts sess r now).cookie = none := by
  constructor <;> simp [Generate, hs, hm, hk, hc, hv]

/-- Claim C5: whenever SetCookie is configured and a token is produced
(minted) during issuance — the request is a GET without the API-key
bypass, the session subject resolves, and no non-empty _csrf cookie came
in — a cookie named _csrf is written with the token as value, path "/",
expiry one day from now, Secure per the configured option, HttpOnly
false, and Domain equal to the request host stripped of its port when
that host passes the hostname-shape check, else Domain empty. -/
theorem claim_C5_cookie_write (opts : Options) (sess : String → Option SessVal)
    (r : Request) (now : Nat) (uid : String)
    (hset : opts.SetCookie = true)
    (hs : sess opts.SessionKey = some (SessVal.str uid))
    (hm : r.Method = "GET") (hk : r.headerGet "X-API-Key" = "")
    (hc : (r.cookieGet "_csrf").getD "" = "") :
    (Generate opts sess r now).cookie = some
      { Name := "_csrf",
        Value := xsrftoken.Generate opts.Secret uid "POST" now,
        Path := "/",
        Domain := if regexpMatch domainRegex (stripPort r.Host).data then stripPort r.Host else "",
        Expires := now + oneDay,
        MaxAge := 0,
        Secure := opts.Secure,
        HttpOnly := false,
        Raw := "_csrf=" ++ xsrftoken.Generate opts.Secret uid "POST" now,
        Unparsed := ["token=" ++ xsrftoken.Generate opts.Secret uid "POST" now] } := by
  simp [Generate, hs, hm, hk, hc, hset]

/-- Claim C6: on every GET request carrying a non-empty X-API-Key header,
Generate writes no cookie and no response header, whatever the options
and the session say. -/
theorem claim_C6_api_key_suppresses (opts : Options) (sess : String → Option SessVal)
    (r : Request) (now : Nat)
    (_hm : r.Method = "GET") (hk : r.headerGet "X-API-Key" ≠ "") :
    (Generate opts sess r now).cookie = none ∧ (Generate opts sess r now).header = none := by
  have hcond : ¬(r.Method = "GET" ∧ r.headerGet "X-API-Key" = "") := fun hc => hk hc.2
  cases hsv : sess opts.SessionKey with
  | none => simp [Generate, hsv]
  | some v =>
    cases v with
    | other => simp [Generate, hsv]
    | str uid => simp [Generate, hsv, hcond]

/-- Claim C7: Generate always constructs a context pre-populated with the
configured secret (first conjunct, for every request and session); and
when the session value at SessionKey is absent or not string-typed, the
context's id and token stay empty, GetToken returns "", and no cookie or
header is written (second conjunct). -/
theorem claim_C7_context_always_mapped :
    (∀ (opts : Options) (sess : String → Option SessVal) (r : Request) (now : Nat),
        (Generate opts sess r now).ctx.Secret = opts.Secret) ∧
    (∀ (opts : Options) (sess : String → Option SessVal) (r : Request) (now : Nat),
        sess opts.SessionKey = none ∨ sess opts.SessionKey = some SessVal.other →
        (Generate opts sess r now).ctx.Id = "" ∧ (Generate opts sess r now).ctx.Token = "" ∧
        (Generate opts sess r now).ctx.GetToken = "" ∧
        (Generate opts sess r now).cookie = none ∧ (Generate opts sess r now).header = none) := by
  constructor
  · intro opts sess r now
    cases hsv : sess opts.SessionKey with
    | none => simp [Generate, hsv]
    | some v =>
      cases v with
      | other => simp [Generate, hsv]
      | str uid =>
        by_cases hcond : r.Method = "GET" ∧ r.headerGet "X-API-Key" = ""
        · by_cases hex : (r.cookieGet "_csrf").getD "" = ""
          · simp [Generate, hsv, hcond, hex]
          · simp [Generate, hsv, hcond, hex]
        · simp [Generate, hsv, hcond]
  · intro opts sess r now h
    rcases h with h | h <;> simp [Generate, h, csrf.GetToken]

/-- Claim C10: on every request whose method is not GET, when the session
holds a string subject id, Generate populates the context's Secret and Id
but leaves its Token empty (GetToken returns "") and writes neither a
cookie nor a response header. -/
theorem claim_C10_non_get_no_delivery (opts : Options) (sess : String → Option SessVal)
    (r : Request) (now : Nat) (uid : String)
    (hs : sess opts.SessionKey = some (SessVal.str uid))
    (hm : r.Method ≠ "GET") :
    (Generate opts sess r now).ctx.Secret = opts.Secret ∧
    (Generate opts sess r now).ctx.Id = uid ∧
    (Generate opts sess r now).ctx.Token = "" ∧
    (Generate opts sess r now).ctx.GetToken = "" ∧
    (Generate opts sess r now).cookie = none ∧
    (Generate opts sess r now).header = none := by
  have hcond : ¬(r.Method = "GET" ∧ r.headerGet "X-API-Key" = "") := fun hc => hm hc.1
  simp [Generate, hs, hcond, csrf.GetToken]

/-- Claim C9: the hostname-shape check fails on every input — the pattern
keeps its literal '/' delimiters, so the ^ anchor is evaluated after one
character has already been consumed and can never hold — hence every
cookie written by Generate has an empty Domain field. -/
theorem claim_C9_domain_always_empty :
    (∀ h : String, regexpMatch domainRegex h.data = false) ∧
    (∀ (opts : Options) (sess : String → Option SessVal) (r : Request) (now : Nat) (ck : Cookie),
        (Generate opts sess r now).cookie = some ck → ck.Domain = "") := by
  refine ⟨fun h => regexpMatch_domainRegex h.data, ?_⟩
  intro opts sess r now ck hck
  cases hsv : sess opts.SessionKey with
  | none => simp [Generate, hsv] at hck
  | some v =>
    cases v with
    | other => simp [Generate, hsv] at hck
    | str uid =>
      by_cases hcond : r.Method = "GET" ∧ r.headerGet "X-API-Key" = ""
      · by_cases hex : (r.cookieGet "_csrf").getD "" = ""
        · by_cases hsc : opts.SetCookie
          · simp [Generate, hsv, hcond, hex, hsc] at hck
            rw [← hck]
            simp [regexpMatch_domainRegex]
          · simp [Generate, hsv, hcond, hex, hsc] at hck
        · simp [Generate, hsv, hcond, hex] at hck
      · simp [Generate, hsv, hcond] at hck

/-!
Concrete fixtures used by the witnesses below.
-/

/-- Options with both delivery channels switched on. -/
def optsW : Options :=
  { Secret := "s", SessionKey := "userId", SetHeader := true, SetCookie := true, Secure := false }

/-- A session holding the subject id "u" under the key "userId". -/
def sessW : String → Option SessVal := fun k => if k = "userId" then some (SessVal.str "u") else none

/-- A session with no entry at all. -/
def sessNone : String → Option SessVal := fun _ => none

/-- A bare GET request: no headers, no cookies, no form fields. -/
def reqGet : Request :=
  { Method := "GET", headerGet := fun _ => "", cookieGet := fun _ => none,
    formValue := fun _ => "", Host := "example.com:80" }

theorem claim_C4_witness :
    (Generate optsW sessW
        { reqGet with cookieGet := fun n => if n = "_csrf" then some "old" else none }
        1).ctx.Token = "old" ∧
    (Generate optsW sessW
        { reqGet with cookieGet := fun n => if n = "_csrf" then some "old" else none }
        1).cookie = none :=
  claim_C4_cookie_reuse optsW sessW
    { reqGet with cookieGet := fun n => if n = "_csrf" then some "old" else none }
    1 "u" "old" rfl rfl rfl rfl (by decide)

theorem claim_C5_witness :
    (Generate optsW sessW reqGet 1).cookie = some
      { Name := "_csrf",
        Value := xsrftoken.Generate optsW.Secret "u" "POST" 1,
        Path := "/",
        Domain := if regexpMatch domainRegex (stripPort reqGet.Host).data then stripPort reqGet.Host
          else "",
        Expires := 1 + oneDay,
        MaxAge := 0,
        Secure := optsW.Secure,
        HttpOnly := false,
        Raw := "_csrf=" ++ xsrftoken.Generate optsW.Secret "u" "POST" 1,
        Unparsed := ["token=" ++ xsrftoken.Generate optsW.Secret "u" "POST" 1] } :=
  claim_C5_cookie_write optsW sessW reqGet 1 "u" rfl rfl rfl rfl rfl

theorem claim_C6_witness :
    (Generate optsW sessW
        { reqGet with headerGet := fun n => if n = "X-API-Key" then "k" else "" } 1).cookie = none ∧
    (Generate optsW sessW
        { reqGet with headerGet := fun n => if n = "X-API-Key" then "k" else "" } 1).header = none :=
  claim_C6_api_key_suppresses optsW sessW
    { reqGet with headerGet := fun n => if n = "X-API-Key" then "k" else "" } 1 rfl (by decide)

theorem claim_C7_witness :
    (Generate optsW sessNone reqGet 1).ctx.Id = "" ∧
    (Generate optsW sessNone reqGet 1).ctx.Token = "" ∧
    (Generate optsW sessNone reqGet 1).ctx.GetToken = "" ∧
    (Generate optsW sessNone reqGet 1).cookie = none ∧
    (Generate optsW sessNone reqGet 1).header = none :=
  claim_C7_context_always_mapped.2 optsW sessNone reqGet 1 (Or.inl rfl)

theorem claim_C10_witness :
    (Generate optsW sessW { reqGet with Method := "POST" } 1).ctx.Secret = optsW.Secret ∧
    (Generate optsW sessW { reqGet with Method := "POST" } 1).ctx.Id = "u" ∧
    (Generate optsW sessW { reqGet with Method := "POST" } 1).ctx.Token = "" ∧
    (Generate optsW sessW { reqGet with Method := "POST" } 1).ctx.GetToken = "" ∧
    (Generate optsW sessW { reqGet with Method := "POST" } 1).cookie = none ∧
    (Generate optsW sessW { reqGet with Method := "POST" } 1).header = none :=
  claim_C10_non_get_no_delivery optsW sessW { reqGet with Method := "POST" } 1 "u" rfl (by decide)

/-- The cookie Generate writes for the fixture request, Domain already
blank; the C9 witness shows it is exactly what Generate produces. -/
def cookieW : Cookie :=
  { Name := "_csrf", Value := "x|s|u|POST", Path := "/", Domain := "", Expires := 86401,
    MaxAge := 0, Secure := false, HttpOnly := false, Raw := "_csrf=x|s|u|POST",
    Unparsed := ["token=x|s|u|POST"] }

theorem claim_C9_witness : cookieW.Domain = "" :=
  claim_C9_domain_always_empty.2 optsW sessW reqGet 1 cookieW (by decide)
